import Mathlib

/-!
Shallow embedding of the datadog-mcp-server repository (TypeScript) for
verification of its specification claims.

Source files embedded:
  src/index.ts            : configuration resolution, cleanupUrl, startup validation
  src/tools/getTrace.ts   : the get-trace adapter
  src/tools/searchSpans.ts: the search-spans adapter
  src/tools/aggregateSpans.ts (unnamed part_000): the aggregate-spans adapter

JavaScript conventions modelled explicitly:
  - a possibly-undefined string is an Option String; truthiness of such a
    value is "defined and non-empty";
  - a possibly-undefined number is an Option Int (the adapters only ever
    compare limits against integers; fractional values play no role in any
    claim);
  - the expression a OR b picks a when a is truthy, else b;
  - Array.prototype.slice with a negative end index counts from the end;
  - a thrown value is either an Error carrying a message, or the backend
    error object rethrown unchanged; backend errors carry an optional
    numeric status field.

Each adapter execute is modelled as a pure function of: the module-level
configuration state (bound by initialize), the process environment read at
call time, the call parameters, and a backend oracle.  It returns the
observable result (Except) paired with the list of requests actually sent
to the backend, so that "zero backend invocations" is expressible.
-/

/-- Truthiness of a possibly-undefined JS string: defined and non-empty. -/
def truthy : Option String → Bool
  | none => false
  | some s => !s.isEmpty

/-- The JS expression a OR b on possibly-undefined strings: a when truthy, else b. -/
def jsOrStr (a b : Option String) : Option String :=
  if truthy a then a else b

/-- The JS expression a OR d where d is a plain string default. -/
def jsOrDefault (a : Option String) (d : String) : String :=
  match a with
  | some s => if !s.isEmpty then s else d
  | none => d

/-- The JS expression n OR d on a possibly-undefined number (0 is falsy). -/
def jsOrNum (o : Option Int) (d : Int) : Int :=
  match o with
  | some n => if n = 0 then d else n
  | none => d

/-- JS Array.prototype.slice from index 0 to stop: a negative stop counts
from the end of the array, clamped at 0. -/
def jsSlice {α : Type} (l : List α) (stop : Int) : List α :=
  if stop < 0 then l.take ((l.length : Int) + stop).toNat else l.take stop.toNat

/-- The process environment fields the adapters read at call time
(process.env.DD_API_KEY, DD_APP_KEY, DD_SITE). -/
structure DDEnv where
  DD_API_KEY : Option String
  DD_APP_KEY : Option String
  DD_SITE : Option String
deriving DecidableEq, Repr

/-- Model of the datadog client Configuration handle: the authMethods bound
by createConfiguration plus the server variable set by setServerVariables. -/
structure Configuration where
  apiKeyAuth : Option String
  appKeyAuth : Option String
  site : Option String
deriving DecidableEq, Repr

/-- Shared body of initialize for the three span adapters: build a configuration
from the credentials, then set the site server variable when DD_SITE is
truthy.  The previous module-level handle is overwritten unconditionally. -/
def buildConfiguration (env : DDEnv) : Configuration :=
  let cfg : Configuration :=
    { apiKeyAuth := env.DD_API_KEY, appKeyAuth := env.DD_APP_KEY, site := none }
  if truthy env.DD_SITE then { cfg with site := env.DD_SITE } else cfg

/-- getTrace.initialize: rebinds the module-level configuration handle. -/
def getTraceInitialize (env : DDEnv) (_prev : Option Configuration) : Option Configuration :=
  some (buildConfiguration env)

/-- searchSpans.initialize: identical body to getTrace.initialize. -/
def searchSpansInitialize (env : DDEnv) (_prev : Option Configuration) : Option Configuration :=
  some (buildConfiguration env)

/-- aggregateSpans.initialize: identical body to getTrace.initialize. -/
def aggregateSpansInitialize (env : DDEnv) (_prev : Option Configuration) : Option Configuration :=
  some (buildConfiguration env)

/-- The filter object of a spans search request: query, from, to. -/
structure SpansQueryFilter where
  query : Option String
  from_ : Option String
  to_ : Option String
deriving DecidableEq, Repr

/-- The page object of a spans search request: limit, cursor. -/
structure SpansQueryPage where
  limit : Option Int
  cursor : Option String
deriving DecidableEq, Repr

/-- Attributes of a SpansListRequest body. -/
structure SpansListAttributes where
  filter : Option SpansQueryFilter
  sort : Option String
  page : Option SpansQueryPage
deriving DecidableEq, Repr

/-- The SpansListRequest body sent to POST /api/v2/spans/events/search. -/
structure SpansListRequest where
  attributes : SpansListAttributes
  type_ : String
deriving DecidableEq, Repr

/-- The backend response to a spans list request: an optional span array
and optional metadata; span and metadata payloads are opaque type
parameters. -/
structure SpansListResponse (σ μ : Type) where
  data : Option (List σ)
  meta : Option μ
deriving DecidableEq, Repr

/-- A backend error object: an optional numeric HTTP status plus an opaque
payload standing for all its other fields. -/
structure ApiError (π : Type) where
  status : Option Int
  payload : π
deriving DecidableEq, Repr

/-- What an adapter execute can throw: a fresh Error with a message, or the
original backend error rethrown unchanged. -/
inductive ThrownError (π : Type) where
  | jsError (message : String)
  | original (e : ApiError π)
deriving DecidableEq, Repr

/-- The single quote character, used in source-string reconstruction. -/
def quoteChar : Char := Char.ofNat 39

/-- The message thrown on a 403 from any span adapter; in the source the
scope name is wrapped in single quotes. -/
def apmAuthMessage : String :=
  "Datadog API authorization failed. Please verify your API and Application keys have the "
    ++ String.singleton quoteChar ++ "apm_read" ++ String.singleton quoteChar ++ " scope."

/-- The message thrown on a 429 from any span adapter. -/
def rateLimitMessage : String :=
  "Rate limit exceeded. Spans API allows 300 requests per hour."

/-- The message thrown by getTrace on a 404, naming the trace id and the
default time window. -/
def traceNotFoundMessage (traceId : String) : String :=
  "Trace with ID " ++ traceId
    ++ " not found. Make sure the trace exists and is within the time window (last 15 minutes by default)."

/-- The credential-validation error message shared by every adapter. -/
def credsRequiredMessage : String := "API Key and App Key are required"

/-- Parameters of getTrace.execute. -/
structure GetTraceParams where
  traceId : String
  limit : Option Int
deriving DecidableEq, Repr

/-- The augmented result returned by getTrace.execute on success. -/
structure GetTraceResult (σ μ : Type) where
  traceId : String
  spans : List σ
  meta : Option μ
  spanCount : Nat
deriving DecidableEq, Repr

/-- A backend oracle for the spans list endpoint: receives the
configuration handle the SpansApi instance was built from and the request
body, and either returns a response or fails with an error object. -/
abbrev SpansBackend (σ μ π : Type) :=
  Option Configuration → SpansListRequest → Except (ApiError π) (SpansListResponse σ μ)

/-- getTrace.execute.  The try block validates credentials and traceId,
builds the search body with the trace_id filter, the default 15-minute
window, timestamp sort and the limit-or-1000 page limit, performs the
single backend call, and augments the response; the catch block translates
403, 429 and 404 and rethrows anything else unchanged.  The validation
throws are Error objects without a status field, so the catch rethrows them
unchanged too, which is folded into returning them directly. -/
def getTraceExecute {σ μ π : Type} (cfg : Option Configuration) (env : DDEnv)
    (p : GetTraceParams) (backend : SpansBackend σ μ π) :
    Except (ThrownError π) (GetTraceResult σ μ) × List SpansListRequest :=
  if ¬ (truthy env.DD_API_KEY ∧ truthy env.DD_APP_KEY) then
    (.error (.jsError credsRequiredMessage), [])
  else if p.traceId.isEmpty then
    (.error (.jsError "traceId is required"), [])
  else
    let body : SpansListRequest :=
      { attributes :=
          { filter := some
              { query := some ("trace_id:" ++ p.traceId)
                from_ := some "now-15m"
                to_ := some "now" }
            sort := some "timestamp"
            page := some { limit := some (jsOrNum p.limit 1000), cursor := none } }
        type_ := "search_request" }
    match backend cfg body with
    | .ok response =>
        (.ok { traceId := p.traceId
               spans := response.data.getD []
               meta := response.meta
               spanCount := match response.data with | some l => l.length | none => 0 },
         [body])
    | .error e =>
        if e.status = some 403 then (.error (.jsError apmAuthMessage), [body])
        else if e.status = some 429 then (.error (.jsError rateLimitMessage), [body])
        else if e.status = some 404 then
          (.error (.jsError (traceNotFoundMessage p.traceId)), [body])
        else (.error (.original e), [body])

/-- Parameters of searchSpans.execute. -/
structure SearchSpansParams where
  filter : Option SpansQueryFilter
  sort : Option String
  page : Option SpansQueryPage
  limit : Option Int
deriving DecidableEq, Repr

/-- searchSpans.execute: validates credentials, builds the search body from
the caller filter/sort/page, performs the single backend call, then applies
the client-side truncation when limit is truthy, data is present and
strictly longer than limit; the catch block translates 403 and 429 and
rethrows anything else unchanged. -/
def searchSpansExecute {σ μ π : Type} (cfg : Option Configuration) (env : DDEnv)
    (p : SearchSpansParams) (backend : SpansBackend σ μ π) :
    Except (ThrownError π) (SpansListResponse σ μ) × List SpansListRequest :=
  if ¬ (truthy env.DD_API_KEY ∧ truthy env.DD_APP_KEY) then
    (.error (.jsError credsRequiredMessage), [])
  else
    let body : SpansListRequest :=
      { attributes :=
          { filter := p.filter.map fun f =>
              { query := f.query, from_ := f.from_, to_ := f.to_ }
            sort := p.sort
            page := p.page }
        type_ := "search_request" }
    match backend cfg body with
    | .ok response =>
        match p.limit, response.data with
        | some n, some l =>
            if n ≠ 0 ∧ (l.length : Int) > n then
              (.ok { response with data := some (jsSlice l n) }, [body])
            else (.ok response, [body])
        | _, _ => (.ok response, [body])
    | .error e =>
        if e.status = some 403 then (.error (.jsError apmAuthMessage), [body])
        else if e.status = some 429 then (.error (.jsError rateLimitMessage), [body])
        else (.error (.original e), [body])

/-- A compute specification of an aggregate request: aggregation plus
optional metric and type; caller parameter and built request spec share
this shape (the build maps the fields across unchanged). -/
structure SpansComputeSpec where
  aggregation : String
  metric : Option String
  type_ : Option String
deriving DecidableEq, Repr

/-- The sort object of a caller groupBy parameter. -/
structure SpansGroupBySortParam where
  aggregation : Option String
  order : Option String
  metric : Option String
  type_ : Option String
deriving DecidableEq, Repr

/-- A caller groupBy parameter of aggregateSpans. -/
structure SpansGroupByParam where
  facet : String
  limit : Option Int
  sort : Option SpansGroupBySortParam
deriving DecidableEq, Repr

/-- The options object of an aggregate request. -/
structure SpansOptions where
  timezone : Option String
deriving DecidableEq, Repr

/-- Attributes of a SpansAggregateRequest body.  The built groupBy sort
object has each field assigned only when the corresponding caller field is
truthy, so it reuses the caller sort shape. -/
structure SpansAggregateAttributes where
  filter : Option SpansQueryFilter
  compute : Option (List SpansComputeSpec)
  groupBy : Option (List SpansGroupByParam)
  options : Option SpansOptions
deriving DecidableEq, Repr

/-- The SpansAggregateRequest body sent to POST /api/v2/spans/analytics/aggregate. -/
structure SpansAggregateRequest where
  attributes : SpansAggregateAttributes
  type_ : String
deriving DecidableEq, Repr

/-- Parameters of aggregateSpans.execute. -/
structure AggregateSpansParams where
  filter : Option SpansQueryFilter
  compute : Option (List SpansComputeSpec)
  groupBy : Option (List SpansGroupByParam)
  options : Option SpansOptions
deriving DecidableEq, Repr

/-- Keep a possibly-undefined string field only when it is truthy: models
the conditional field assignments building the groupBy sort object. -/
def keepTruthy (o : Option String) : Option String :=
  if truthy o then o else none

/-- Build one groupBy specification: facet and limit copied, sort object
present when the caller gave one, with each field set only when truthy. -/
def buildGroupBySpec (g : SpansGroupByParam) : SpansGroupByParam :=
  { facet := g.facet
    limit := g.limit
    sort := g.sort.map fun s =>
      { aggregation := keepTruthy s.aggregation
        order := keepTruthy s.order
        metric := keepTruthy s.metric
        type_ := keepTruthy s.type_ } }

/-- A backend oracle for the spans aggregate endpoint; the response payload
is opaque. -/
abbrev AggregateBackend (ρ π : Type) :=
  Option Configuration → SpansAggregateRequest → Except (ApiError π) ρ

/-- aggregateSpans.execute: validates credentials, builds compute and
groupBy specifications, performs the single backend call and returns the
response unchanged; the catch block translates 403 and 429 and rethrows
anything else unchanged. -/
def aggregateSpansExecute {ρ π : Type} (cfg : Option Configuration) (env : DDEnv)
    (p : AggregateSpansParams) (backend : AggregateBackend ρ π) :
    Except (ThrownError π) ρ × List SpansAggregateRequest :=
  if ¬ (truthy env.DD_API_KEY ∧ truthy env.DD_APP_KEY) then
    (.error (.jsError credsRequiredMessage), [])
  else
    let body : SpansAggregateRequest :=
      { attributes :=
          { filter := p.filter.map fun f =>
              { query := f.query, from_ := f.from_, to_ := f.to_ }
            compute := p.compute.map fun cs => cs.map fun c =>
              { aggregation := c.aggregation, metric := c.metric, type_ := c.type_ }
            groupBy := p.groupBy.map fun gs => gs.map buildGroupBySpec
            options := p.options }
        type_ := "aggregate_request" }
    match backend cfg body with
    | .ok response => (.ok response, [body])
    | .error e =>
        if e.status = some 403 then (.error (.jsError apmAuthMessage), [body])
        else if e.status = some 429 then (.error (.jsError rateLimitMessage), [body])
        else (.error (.original e), [body])

/-- Modelled from the spec: the uniform tool adapter contract of the ten
adapters whose source files are not in the repository snapshot (monitors,
dashboards, metrics, metric metadata, events, incidents, log search, log
aggregation).  Per the spec, every adapter initialize constructs its
backend client handle from the resolved credentials and site exactly like
the three span adapters do, overwriting any previous handle. -/
def genericAdapterInitialize (env : DDEnv) (_prev : Option Configuration) :
    Option Configuration :=
  some (buildConfiguration env)

/-- Modelled from the spec: the uniform adapter execute of the adapters not
in the snapshot.  Per the spec validation order, it verifies both
credentials first and fails with the credential-validation error before any
backend call; otherwise it performs its single backend call on a request
built from the parameters by a capability-specific mapping, and normalizes
the response by a capability-specific function (capability-specific error
translation is outside what the claims need from these adapters and is
represented by rethrowing). -/
def genericAdapterExecute {φ ρ ω π : Type} (cfg : Option Configuration) (env : DDEnv)
    (p : φ) (buildReq : φ → ρ) (normalize : ω → ω)
    (backend : Option Configuration → ρ → Except (ApiError π) ω) :
    Except (ThrownError π) ω × List ρ :=
  if ¬ (truthy env.DD_API_KEY ∧ truthy env.DD_APP_KEY) then
    (.error (.jsError credsRequiredMessage), [])
  else
    let body := buildReq p
    match backend cfg body with
    | .ok response => (.ok (normalize response), [body])
    | .error e => (.error (.original e), [body])

/-- Remove the secure-scheme prefix from a site value if present: the
cleanupUrl arrow function of index.ts.  JS startsWith is character-prefix
comparison and substring(8) drops the first 8 UTF-16 units; the prefix is
ASCII, so both coincide with codepoint operations. -/
def cleanupUrl (url : String) : String :=
  if "https://".data.isPrefixOf url.data then url.drop 8 else url

/-- Command-line overrides recognised by index.ts. -/
structure Argv where
  apiKey : Option String
  appKey : Option String
  site : Option String
  logsSite : Option String
  metricsSite : Option String
deriving DecidableEq, Repr

/-- The process environment as seen at startup (undefined fields are
absent variables). -/
structure ProcessEnv where
  DD_API_KEY : Option String
  DD_APP_KEY : Option String
  DD_SITE : Option String
  DD_LOGS_SITE : Option String
  DD_METRICS_SITE : Option String
deriving DecidableEq, Repr

/-- The values stored back into process.env after cleaning. -/
structure StoredEnv where
  DD_API_KEY : Option String
  DD_APP_KEY : Option String
  DD_SITE : String
  DD_LOGS_SITE : String
  DD_METRICS_SITE : String
deriving DecidableEq, Repr

/-- Outcome of process startup: either exit with a status code after
printing diagnostics on the error stream, or proceed to initialize the
tools and serve with the stored environment. -/
inductive StartupOutcome where
  | exited (code : Nat) (diagnostics : List String)
  | serving (stored : StoredEnv)
deriving DecidableEq, Repr

/-- The three diagnostic lines printed when the API key is missing. -/
def apiKeyErrorLines : List String :=
  ["Error: DD_API_KEY is required.",
   "Please provide it via command line argument or .env file.",
   " Command line: --apiKey=your_api_key"]

/-- The three diagnostic lines printed when the App key is missing. -/
def appKeyErrorLines : List String :=
  ["Error: DD_APP_KEY is required.",
   "Please provide it via command line argument or .env file.",
   " Command line: --appKey=your_app_key"]

/-- Startup logic of index.ts: resolve each value as command-line override
OR environment variable (OR documented default for sites), store the
cleaned values, then validate the two credentials in order, exiting with
status 1 on the first missing one; only otherwise does the process reach
tool initialization and serving. -/
def startup (argv : Argv) (penv : ProcessEnv) : StartupOutcome :=
  let apiKey := jsOrStr argv.apiKey penv.DD_API_KEY
  let appKey := jsOrStr argv.appKey penv.DD_APP_KEY
  let site := jsOrDefault (jsOrStr argv.site penv.DD_SITE) "datadoghq.com"
  let logsSite := jsOrDefault (jsOrStr argv.logsSite penv.DD_LOGS_SITE) site
  let metricsSite := jsOrDefault (jsOrStr argv.metricsSite penv.DD_METRICS_SITE) site
  let stored : StoredEnv :=
    { DD_API_KEY := apiKey
      DD_APP_KEY := appKey
      DD_SITE := cleanupUrl site
      DD_LOGS_SITE := cleanupUrl logsSite
      DD_METRICS_SITE := cleanupUrl metricsSite }
  if ¬ truthy apiKey then .exited 1 apiKeyErrorLines
  else if ¬ truthy appKey then .exited 1 appKeyErrorLines
  else .serving stored

/-- s contains sub as a contiguous substring. -/
def containsSub (s sub : String) : Prop :=
  ∃ a b : String, s = a ++ sub ++ b

/-- Equality of Except values is decidable when it is on both sides; used
to evaluate concrete adapter runs in witnesses and counterexamples. -/
instance {ε α : Type} [DecidableEq ε] [DecidableEq α] : DecidableEq (Except ε α) :=
  fun a b =>
    match a, b with
    | .ok x, .ok y =>
        if h : x = y then .isTrue (by rw [h]) else .isFalse (by simp [h])
    | .error x, .error y =>
        if h : x = y then .isTrue (by rw [h]) else .isFalse (by simp [h])
    | .ok _, .error _ => .isFalse (by simp)
    | .error _, .ok _ => .isFalse (by simp)

/-- A concrete call-time environment with both credentials present. -/
def envEx : DDEnv :=
  { DD_API_KEY := some "k", DD_APP_KEY := some "a", DD_SITE := some "datadoghq.com" }

/-- A concrete call-time environment whose API key is absent. -/
def envNoApiKey : DDEnv :=
  { DD_API_KEY := none, DD_APP_KEY := some "a", DD_SITE := none }

/-- A concrete spans backend returning an empty span list. -/
def okBackend : SpansBackend Nat Nat Nat :=
  fun _ _ => .ok { data := some [], meta := none }

/-- A concrete spans backend returning one span. -/
def oneSpanBackend : SpansBackend Nat Nat Nat :=
  fun _ _ => .ok { data := some [7], meta := none }

/-- A concrete aggregate backend returning a fixed payload. -/
def okAggBackend : AggregateBackend Nat Nat :=
  fun _ _ => .ok 0

/-- Concrete searchSpans parameters with no optional field supplied. -/
def ssParamsEmpty : SearchSpansParams :=
  { filter := none, sort := none, page := none, limit := none }

/-- Concrete aggregateSpans parameters with no optional field supplied. -/
def asParamsEmpty : AggregateSpansParams :=
  { filter := none, compute := none, groupBy := none, options := none }


/-- Two strings with the same character data are equal. -/
theorem str_ext {a b : String} (h : a.data = b.data) : a = b := by
  cases a; cases b; exact congrArg String.mk h

/-- The secure-scheme marker has eight characters. -/
theorem https_data_length : "https://".data.length = 8 := by decide

/-- When the input begins with the secure-scheme marker, cleanupUrl removes
exactly that one occurrence from the front. -/
theorem cleanupUrl_strips {url : String}
    (h : "https://".data.isPrefixOf url.data = true) :
    "https://" ++ cleanupUrl url = url := by
  have hp : "https://".data <+: url.data := by
    simpa using List.isPrefixOf_iff_prefix.mp h
  obtain ⟨t, ht⟩ := hp
  have hc : cleanupUrl url = url.drop 8 := by simp [cleanupUrl, h]
  apply str_ext
  rw [hc, String.data_append, String.data_drop, ← ht]
  rw [List.drop_left' https_data_length]

/-- C6 counterexample: the site-normalization function is not idempotent.
On the concrete input that begins with the secure-scheme marker twice, one
application strips one occurrence, and a second application strips again,
changing the already-stripped value. -/
theorem C6_counterexample :
    cleanupUrl (cleanupUrl "https://https://a") ≠ cleanupUrl "https://https://a" := by
  decide

/-- C6 amended: for every string beginning with the secure-scheme marker,
cleanupUrl returns the input with exactly that one leading occurrence
removed; for every string not beginning with it, the input is returned
unchanged; and applying the function twice equals applying it once for
every input that does not begin with the marker doubled. -/
theorem C6_cleanupUrl_amended (url : String) :
    ("https://".data.isPrefixOf url.data = true → "https://" ++ cleanupUrl url = url) ∧
    ("https://".data.isPrefixOf url.data = false → cleanupUrl url = url) ∧
    ("https://https://".data.isPrefixOf url.data = false →
      cleanupUrl (cleanupUrl url) = cleanupUrl url) := by
  refine ⟨fun h => cleanupUrl_strips h, fun h => by simp [cleanupUrl, h], fun h2 => ?_⟩
  cases hb : "https://".data.isPrefixOf url.data with
  | false => simp [cleanupUrl, hb]
  | true =>
    have hp : "https://".data <+: url.data := by
      simpa using List.isPrefixOf_iff_prefix.mp hb
    obtain ⟨t, ht⟩ := hp
    have hdata : (cleanupUrl url).data = t := by
      rw [cleanupUrl, if_pos hb, String.data_drop, ← ht]
      rw [List.drop_left' https_data_length]
    have hnp : "https://".data.isPrefixOf t = false := by
      cases hb2 : "https://".data.isPrefixOf t with
      | false => rfl
      | true =>
        exfalso
        have hpt : "https://".data <+: t := by
          simpa using List.isPrefixOf_iff_prefix.mp hb2
        obtain ⟨u, hu⟩ := hpt
        have hdouble : "https://https://".data <+: url.data := by
          refine ⟨u, ?_⟩
          have hsplit : ("https://https://".data : List Char)
              = "https://".data ++ "https://".data := by decide
          rw [hsplit, ← ht, List.append_assoc, hu]
        have : "https://https://".data.isPrefixOf url.data = true := by
          have h3 := @List.isPrefixOf_iff_prefix Char _ _
            "https://https://".data url.data
          exact h3.mpr hdouble
        rw [this] at h2
        simp at h2
    rw [cleanupUrl, if_neg]
    rw [hdata, hnp]
    simp

/-- C6 witness: concrete evaluations of the amended statement at a
prefixed site, an unprefixed site, and an idempotence instance. -/
theorem C6_witness :
    "https://" ++ cleanupUrl "https://api.datadoghq.com" = "https://api.datadoghq.com" ∧
    cleanupUrl "datadoghq.com" = "datadoghq.com" ∧
    cleanupUrl (cleanupUrl "https://api.datadoghq.com") = cleanupUrl "https://api.datadoghq.com" :=
  ⟨(C6_cleanupUrl_amended "https://api.datadoghq.com").1 (by decide),
   (C6_cleanupUrl_amended "datadoghq.com").2.1 (by decide),
   (C6_cleanupUrl_amended "https://api.datadoghq.com").2.2 (by decide)⟩

/-- C7: when the resolved API key is falsy (absent or empty) after
command-line and environment resolution, startup exits with status 1
printing the three diagnostic lines naming DD_API_KEY and the command-line
flag; when the API key is present but the resolved App key is falsy,
startup exits with status 1 printing the lines naming DD_APP_KEY; a value
that is absent (undefined) is in particular falsy; and each diagnostic
block names the missing key and how to supply it.  Exiting means the
serving branch, which alone initializes tools and serves calls, is never
reached. -/
theorem C7_startup_validation (argv : Argv) (penv : ProcessEnv) :
    (truthy (jsOrStr argv.apiKey penv.DD_API_KEY) = false →
      startup argv penv = .exited 1 apiKeyErrorLines) ∧
    (truthy (jsOrStr argv.apiKey penv.DD_API_KEY) = true →
      truthy (jsOrStr argv.appKey penv.DD_APP_KEY) = false →
      startup argv penv = .exited 1 appKeyErrorLines) ∧
    (jsOrStr argv.apiKey penv.DD_API_KEY = none →
      truthy (jsOrStr argv.apiKey penv.DD_API_KEY) = false) ∧
    (jsOrStr argv.appKey penv.DD_APP_KEY = none →
      truthy (jsOrStr argv.appKey penv.DD_APP_KEY) = false) ∧
    containsSub "Error: DD_API_KEY is required." "DD_API_KEY" ∧
    containsSub " Command line: --apiKey=your_api_key" "--apiKey=your_api_key" ∧
    containsSub "Error: DD_APP_KEY is required." "DD_APP_KEY" ∧
    containsSub " Command line: --appKey=your_app_key" "--appKey=your_app_key" := by
  refine ⟨fun h1 => ?_, fun h1 h2 => ?_, fun h => ?_, fun h => ?_,
    ⟨"Error: ", " is required.", by decide⟩,
    ⟨" Command line: ", "", by decide⟩,
    ⟨"Error: ", " is required.", by decide⟩,
    ⟨" Command line: ", "", by decide⟩⟩
  · simp [startup, h1]
  · simp [startup, h1, h2]
  · rw [h]; rfl
  · rw [h]; rfl

/-- C7 witness: with no configured keys at all, startup exits with status 1
and the DD_API_KEY diagnostics. -/
theorem C7_witness :
    startup { apiKey := none, appKey := none, site := none,
              logsSite := none, metricsSite := none }
            { DD_API_KEY := none, DD_APP_KEY := some "a", DD_SITE := none,
              DD_LOGS_SITE := none, DD_METRICS_SITE := none }
      = .exited 1 apiKeyErrorLines :=
  (C7_startup_validation _ _).1 (by decide)


/-- C5: for each adapter in the snapshot (get-trace, search-spans,
aggregate-spans) and the spec-modelled generic adapter standing for the
remaining ones, a call made while either credential is falsy at call time
(absent, or present but empty, which JS treats alike) returns the
credential-validation error and records zero backend invocations: the
request list of the run is empty. -/
theorem C5_credential_guard {σ μ π ρ φ ψ ω : Type}
    (cfg : Option Configuration) (env : DDEnv)
    (pg : GetTraceParams) (ps : SearchSpansParams) (pa : AggregateSpansParams) (pG : φ)
    (bg : SpansBackend σ μ π) (bs : SpansBackend σ μ π) (ba : AggregateBackend ρ π)
    (buildReq : φ → ψ) (normalize : ω → ω)
    (bG : Option Configuration → ψ → Except (ApiError π) ω)
    (h : truthy env.DD_API_KEY = false ∨ truthy env.DD_APP_KEY = false) :
    getTraceExecute cfg env pg bg
      = (.error (.jsError credsRequiredMessage), ([] : List SpansListRequest)) ∧
    searchSpansExecute cfg env ps bs
      = (.error (.jsError credsRequiredMessage), ([] : List SpansListRequest)) ∧
    aggregateSpansExecute cfg env pa ba
      = (.error (.jsError credsRequiredMessage), ([] : List SpansAggregateRequest)) ∧
    genericAdapterExecute cfg env pG buildReq normalize bG
      = (.error (.jsError credsRequiredMessage), ([] : List ψ)) := by
  rcases h with h | h <;>
    refine ⟨?_, ?_, ?_, ?_⟩ <;>
    simp [getTraceExecute, searchSpansExecute, aggregateSpansExecute,
      genericAdapterExecute, h]

/-- C5 witness: concrete runs of all four adapters with the API key absent
produce the credential error and an empty request list. -/
theorem C5_witness :
    getTraceExecute (some (buildConfiguration envNoApiKey)) envNoApiKey
        { traceId := "abc123", limit := none } okBackend
      = (.error (.jsError credsRequiredMessage), []) ∧
    searchSpansExecute (some (buildConfiguration envNoApiKey)) envNoApiKey
        ssParamsEmpty okBackend
      = (.error (.jsError credsRequiredMessage), []) ∧
    aggregateSpansExecute (some (buildConfiguration envNoApiKey)) envNoApiKey
        asParamsEmpty okAggBackend
      = (.error (.jsError credsRequiredMessage), []) ∧
    genericAdapterExecute (some (buildConfiguration envNoApiKey)) envNoApiKey
        (0 : Nat) (fun n => n) (fun (n : Nat) => n)
        (fun _ _ => (.ok 0 : Except (ApiError Nat) Nat))
      = (.error (.jsError credsRequiredMessage), ([] : List Nat)) :=
  C5_credential_guard _ _ _ _ _ _ _ _ _ _ _ _ (Or.inl (by decide))

/-- C9: for each adapter (the three in the snapshot and the spec-modelled
generic one), running initialize a second time over the state left by a
first run, in the same configuration environment, leaves the module state
equal to that after one run, and every subsequent execute call, for every
parameter object and backend, produces the same result either way. -/
theorem C9_initialize_idempotent {σ μ π ρ φ ψ ω : Type}
    (env callEnv : DDEnv) (st : Option Configuration)
    (pg : GetTraceParams) (ps : SearchSpansParams) (pa : AggregateSpansParams) (pG : φ)
    (bg : SpansBackend σ μ π) (bs : SpansBackend σ μ π) (ba : AggregateBackend ρ π)
    (buildReq : φ → ψ) (normalize : ω → ω)
    (bG : Option Configuration → ψ → Except (ApiError π) ω) :
    getTraceInitialize env (getTraceInitialize env st) = getTraceInitialize env st ∧
    getTraceExecute (getTraceInitialize env (getTraceInitialize env st)) callEnv pg bg
      = getTraceExecute (getTraceInitialize env st) callEnv pg bg ∧
    searchSpansInitialize env (searchSpansInitialize env st) = searchSpansInitialize env st ∧
    searchSpansExecute (searchSpansInitialize env (searchSpansInitialize env st)) callEnv ps bs
      = searchSpansExecute (searchSpansInitialize env st) callEnv ps bs ∧
    aggregateSpansInitialize env (aggregateSpansInitialize env st)
      = aggregateSpansInitialize env st ∧
    aggregateSpansExecute (aggregateSpansInitialize env (aggregateSpansInitialize env st))
        callEnv pa ba
      = aggregateSpansExecute (aggregateSpansInitialize env st) callEnv pa ba ∧
    genericAdapterInitialize env (genericAdapterInitialize env st)
      = genericAdapterInitialize env st ∧
    genericAdapterExecute (genericAdapterInitialize env (genericAdapterInitialize env st))
        callEnv pG buildReq normalize bG
      = genericAdapterExecute (genericAdapterInitialize env st) callEnv pG buildReq normalize bG :=
  ⟨rfl, rfl, rfl, rfl, rfl, rfl, rfl, rfl⟩

/-- C8: getTrace.execute checks the two credentials before the traceId
field: with either credential falsy the credential error is returned no
matter what the traceId is (in particular when it is empty too); with both
credentials present and an empty traceId it returns the traceId-required
error with zero backend invocations (empty request list). -/
theorem C8_getTrace_validation_order {σ μ π : Type}
    (cfg : Option Configuration) (env : DDEnv) (p : GetTraceParams)
    (backend : SpansBackend σ μ π) :
    ((truthy env.DD_API_KEY = false ∨ truthy env.DD_APP_KEY = false) →
      getTraceExecute cfg env p backend
        = (.error (.jsError credsRequiredMessage), [])) ∧
    (truthy env.DD_API_KEY = true → truthy env.DD_APP_KEY = true → p.traceId = "" →
      getTraceExecute cfg env p backend
        = (.error (.jsError "traceId is required"), [])) := by
  constructor
  · rintro (h | h) <;> simp [getTraceExecute, h]
  · intro h1 h2 h3
    simp [getTraceExecute, h1, h2, h3]
    intro hfalse
    exact absurd hfalse (by decide)

/-- C8 witness: with both credentials absent and an empty traceId the
credential error wins; with credentials present and an empty traceId the
traceId error is raised with no backend call. -/
theorem C8_witness :
    getTraceExecute (some (buildConfiguration envNoApiKey)) envNoApiKey
        { traceId := "", limit := none } okBackend
      = (.error (.jsError credsRequiredMessage), []) ∧
    getTraceExecute (some (buildConfiguration envEx)) envEx
        { traceId := "", limit := none } okBackend
      = (.error (.jsError "traceId is required"), []) :=
  ⟨(C8_getTrace_validation_order _ _ _ _).1 (Or.inl (by decide)),
   (C8_getTrace_validation_order _ _ _ _).2 (by decide) (by decide) rfl⟩

/-- C3: whenever getTrace.execute succeeds against a backend returning a
fixed response, the result echoes the requested traceId exactly and its
spanCount equals the length of the span list of the backend response (a
response with no span list counts zero). -/
theorem C3_getTrace_result {σ μ π : Type}
    (cfg : Option Configuration) (env : DDEnv) (p : GetTraceParams)
    (resp : SpansListResponse σ μ) (r : GetTraceResult σ μ)
    (h : (getTraceExecute cfg env p
            (fun _ _ => (.ok resp : Except (ApiError π) (SpansListResponse σ μ)))).1
          = .ok r) :
    r.traceId = p.traceId ∧ r.spanCount = (resp.data.getD []).length ∧
    r.spans = resp.data.getD [] := by
  cases hA : truthy env.DD_API_KEY with
  | false => simp [getTraceExecute, hA] at h
  | true =>
    cases hB : truthy env.DD_APP_KEY with
    | false => simp [getTraceExecute, hA, hB] at h
    | true =>
      cases ht : p.traceId.isEmpty with
      | true => simp [getTraceExecute, hA, hB, ht] at h
      | false =>
        simp [getTraceExecute, hA, hB, ht] at h
        cases resp with
        | mk d m =>
          cases d with
          | none => subst h; exact ⟨rfl, rfl, rfl⟩
          | some l => subst h; exact ⟨rfl, rfl, rfl⟩

/-- C3 witness: a concrete successful run echoes the traceId and counts the
single span of the backend response. -/
theorem C3_witness :
    (getTraceExecute (some (buildConfiguration envEx)) envEx
        { traceId := "abc123", limit := none } oneSpanBackend).1
      = .ok { traceId := "abc123", spans := [7], meta := none, spanCount := 1 } ∧
    (GetTraceResult.mk "abc123" [7] (none : Option Nat) 1).traceId
      = (GetTraceParams.mk "abc123" none).traceId ∧
    (GetTraceResult.mk "abc123" [7] (none : Option Nat) 1).spanCount
      = ((SpansListResponse.mk (some [7]) (none : Option Nat)).data.getD []).length := by
  have h : (getTraceExecute (some (buildConfiguration envEx)) envEx
      { traceId := "abc123", limit := none } oneSpanBackend).1
      = .ok { traceId := "abc123", spans := [7], meta := none, spanCount := 1 } := by decide
  exact ⟨h, (C3_getTrace_result _ _ _ _ _ h).1,
    (C3_getTrace_result _ _ _ _ _ h).2.1⟩

/-- Helper: once validation passes, every branch of getTrace.execute has
sent exactly one request, the body with the trace_id query, the default
window, timestamp sort and the limit-or-1000 page. -/
theorem getTraceCalls {σ μ π : Type}
    (cfg : Option Configuration) (env : DDEnv) (p : GetTraceParams)
    (backend : SpansBackend σ μ π)
    (hA : truthy env.DD_API_KEY = true) (hB : truthy env.DD_APP_KEY = true)
    (ht : p.traceId.isEmpty = false) :
    (getTraceExecute cfg env p backend).2 =
      [{ attributes :=
           { filter := some { query := some ("trace_id:" ++ p.traceId),
                              from_ := some "now-15m", to_ := some "now" }
             sort := some "timestamp"
             page := some { limit := some (jsOrNum p.limit 1000), cursor := none } }
         type_ := "search_request" }] := by
  simp only [getTraceExecute, hA, hB, ht]
  simp only [Bool.false_eq_true, not_true_eq_false, and_self, not_false_eq_true,
    if_true, if_false, ite_false, ite_true]
  split
  · rfl
  · split
    · rfl
    · split
      · rfl
      · split
        · rfl
        · rfl

/-- Derive the isEmpty form of a non-empty traceId hypothesis. -/
theorem isEmpty_false_of_ne {s : String} (h : s ≠ "") : s.isEmpty = false := by
  cases he : s.isEmpty with
  | false => rfl
  | true => exact absurd ((String.isEmpty_iff s).mp he) h

/-- C10: a supplied limit of 0 is treated like an absent limit.  For
get-trace the single constructed request carries page limit 1000; for
search-spans no client-side truncation happens and the backend response is
returned whole, whatever the length of its data. -/
theorem C10_zero_limit {σ μ π : Type}
    (cfg : Option Configuration) (env : DDEnv)
    (pg : GetTraceParams) (ps : SearchSpansParams)
    (resp : SpansListResponse σ μ) (bg : SpansBackend σ μ π)
    (hA : truthy env.DD_API_KEY = true) (hB : truthy env.DD_APP_KEY = true)
    (ht : pg.traceId ≠ "") (hgl : pg.limit = some 0) (hsl : ps.limit = some 0) :
    (getTraceExecute cfg env pg bg).2.map (fun b => b.attributes.page)
      = [some { limit := some 1000, cursor := none }] ∧
    (searchSpansExecute cfg env ps
        (fun _ _ => (.ok resp : Except (ApiError π) (SpansListResponse σ μ)))).1
      = .ok resp := by
  constructor
  · rw [getTraceCalls cfg env pg bg hA hB (isEmpty_false_of_ne ht)]
    simp [hgl, jsOrNum]
  · rcases resp with ⟨d, m⟩
    cases d <;> simp [searchSpansExecute, hA, hB, hsl]

/-- C10 witness: concrete zero-limit runs of both adapters. -/
theorem C10_witness :
    (getTraceExecute (some (buildConfiguration envEx)) envEx
        { traceId := "abc123", limit := some 0 } oneSpanBackend).2.map
      (fun b => b.attributes.page)
      = [some { limit := some 1000, cursor := none }] ∧
    (searchSpansExecute (some (buildConfiguration envEx)) envEx
        { filter := none, sort := none, page := none, limit := some 0 }
        (fun _ _ => (.ok { data := some [7], meta := none }
          : Except (ApiError Nat) (SpansListResponse Nat Nat)))).1
      = .ok { data := some [7], meta := none } :=
  C10_zero_limit _ _ _ _ _ _ (by decide) (by decide) (by decide) rfl rfl

/-- C1 counterexample: with credentials present, traceId abc123 and a
supplied limit of 0, the constructed backend request carries page limit
1000, not the supplied limit 0, refuting the unrestricted reading that a
supplied limit always becomes the page limit. -/
theorem C1_counterexample :
    (getTraceExecute (some (buildConfiguration envEx)) envEx
        { traceId := "abc123", limit := some 0 } okBackend).2.map
      (fun b => b.attributes.page)
      = [some { limit := some 1000, cursor := none }] ∧
    (getTraceExecute (some (buildConfiguration envEx)) envEx
        { traceId := "abc123", limit := some 0 } okBackend).2.map
      (fun b => b.attributes.page)
      ≠ [some { limit := some 0, cursor := none }] := by
  constructor <;> decide

/-- C1 amended: for every call with credentials present and a non-empty
traceId, the single constructed backend request has the filter query
trace_id: followed by the traceId, the from now-15m and to now window, the
timestamp sort; its page limit is 1000 when no limit is supplied, and
equals the supplied limit whenever that limit is nonzero (a supplied limit
of 0 is falsy and falls back to 1000, as the counterexample shows). -/
theorem C1_getTrace_request_amended {σ μ π : Type}
    (cfg : Option Configuration) (env : DDEnv) (p : GetTraceParams)
    (backend : SpansBackend σ μ π)
    (hA : truthy env.DD_API_KEY = true) (hB : truthy env.DD_APP_KEY = true)
    (ht : p.traceId ≠ "") :
    (getTraceExecute cfg env p backend).2.map (fun b => b.attributes.filter)
      = [some { query := some ("trace_id:" ++ p.traceId),
                from_ := some "now-15m", to_ := some "now" }] ∧
    (getTraceExecute cfg env p backend).2.map (fun b => b.attributes.sort)
      = [some "timestamp"] ∧
    (p.limit = none →
      (getTraceExecute cfg env p backend).2.map (fun b => b.attributes.page)
        = [some { limit := some 1000, cursor := none }]) ∧
    (∀ n : Int, p.limit = some n → n ≠ 0 →
      (getTraceExecute cfg env p backend).2.map (fun b => b.attributes.page)
        = [some { limit := some n, cursor := none }]) := by
  have hcalls := getTraceCalls cfg env p backend hA hB (isEmpty_false_of_ne ht)
  refine ⟨?_, ?_, fun hnone => ?_, fun n hn hn0 => ?_⟩ <;> rw [hcalls]
  · simp
  · simp
  · simp [hnone, jsOrNum]
  · simp [hn, jsOrNum, hn0]

/-- C1 witness: concrete runs with no limit and with limit 5. -/
theorem C1_witness :
    (getTraceExecute (some (buildConfiguration envEx)) envEx
        { traceId := "abc123", limit := none } okBackend).2.map
      (fun b => b.attributes.page)
      = [some { limit := some 1000, cursor := none }] ∧
    (getTraceExecute (some (buildConfiguration envEx)) envEx
        { traceId := "abc123", limit := some 5 } okBackend).2.map
      (fun b => b.attributes.page)
      = [some { limit := some 5, cursor := none }] :=
  ⟨(C1_getTrace_request_amended _ _ _ _ (by decide) (by decide) (by decide)).2.2.1 rfl,
   (C1_getTrace_request_amended _ _ _ _ (by decide) (by decide) (by decide)).2.2.2
     5 rfl (by decide)⟩

/-- C2 counterexample: with a supplied limit of 0 and a backend response of
one item, more items than the limit, search-spans returns the full one-item
list, not the first 0 items, refuting the unrestricted reading over every
supplied limit. -/
theorem C2_counterexample :
    (searchSpansExecute (some (buildConfiguration envEx)) envEx
        { filter := none, sort := none, page := none, limit := some 0 }
        oneSpanBackend).1
      = .ok { data := some [7], meta := none } ∧
    (searchSpansExecute (some (buildConfiguration envEx)) envEx
        { filter := none, sort := none, page := none, limit := some 0 }
        oneSpanBackend).1
      ≠ .ok { data := some ([] : List Nat), meta := (none : Option Nat) } := by
  constructor <;> decide

/-- C2 amended: for every call with credentials present and a supplied
positive limit, and every backend response whose item list is strictly
longer than the limit, the returned list is exactly the first limit items
of the backend list, a prefix of it in original order, of length exactly
the limit (a supplied limit of 0 is falsy and suppresses truncation, as the
counterexample shows; a negative limit would engage the from-the-end
semantics of slice instead of a length-limit prefix). -/
theorem C2_searchSpans_truncation_amended {σ μ π : Type}
    (cfg : Option Configuration) (env : DDEnv) (p : SearchSpansParams)
    (resp : SpansListResponse σ μ) (l : List σ) (n : Int)
    (hA : truthy env.DD_API_KEY = true) (hB : truthy env.DD_APP_KEY = true)
    (hn : p.limit = some n) (hpos : 0 < n)
    (hl : resp.data = some l) (hlen : n < (l.length : Int)) :
    (searchSpansExecute cfg env p
        (fun _ _ => (.ok resp : Except (ApiError π) (SpansListResponse σ μ)))).1
      = .ok { data := some (l.take n.toNat), meta := resp.meta } ∧
    ((l.take n.toNat).length : Int) = n ∧
    l.take n.toNat <+: l := by
  rcases resp with ⟨d, m⟩
  simp only at hl
  subst hl
  refine ⟨?_, ?_, ?_⟩
  · have hne : n ≠ 0 := by omega
    have hnneg : ¬ n < 0 := by omega
    simp [searchSpansExecute, hA, hB, hn, hne, hlen, jsSlice, hnneg]
  · rw [List.length_take]
    omega
  · exact List.take_prefix _ _

/-- C2 witness: a concrete run with limit 1 against a two-item response
returns exactly the first item. -/
theorem C2_witness :
    (searchSpansExecute (some (buildConfiguration envEx)) envEx
        { filter := none, sort := none, page := none, limit := some 1 }
        (fun _ _ => (.ok { data := some [7, 8], meta := none }
          : Except (ApiError Nat) (SpansListResponse Nat Nat)))).1
      = .ok { data := some (([7, 8] : List Nat).take (1 : Int).toNat),
              meta := (none : Option Nat) } ∧
    ((([7, 8] : List Nat).take (1 : Int).toNat).length : Int) = 1 ∧
    ([7, 8] : List Nat).take (1 : Int).toNat <+: [7, 8] :=
  C2_searchSpans_truncation_amended (some (buildConfiguration envEx)) envEx
    { filter := none, sort := none, page := none, limit := some 1 }
    { data := some [7, 8], meta := none } [7, 8] 1
    (by decide) (by decide) rfl (by decide) rfl (by decide)

/-- C4: for a failing backend call (credentials present, and for get-trace
a non-empty traceId so the call is reached): status 403 makes all three
span adapters throw the authorization message, which names the apm_read
scope; status 429 makes all three throw the rate-limit message, which
names 300 requests per hour; status 404 makes get-trace throw the
not-found message, which contains the input trace identifier and the
default 15-minute window; any other status is rethrown unchanged by
get-trace, and any status other than 403 and 429 is rethrown unchanged by
search-spans and aggregate-spans. -/
theorem C4_span_error_translation {σ μ π ρ : Type}
    (cfg : Option Configuration) (env : DDEnv)
    (pg : GetTraceParams) (ps : SearchSpansParams) (pa : AggregateSpansParams)
    (e : ApiError π)
    (hA : truthy env.DD_API_KEY = true) (hB : truthy env.DD_APP_KEY = true)
    (ht : pg.traceId ≠ "") :
    (e.status = some 403 →
      (getTraceExecute cfg env pg
          (fun _ _ => (.error e : Except (ApiError π) (SpansListResponse σ μ)))).1
        = .error (.jsError apmAuthMessage) ∧
      (searchSpansExecute cfg env ps
          (fun _ _ => (.error e : Except (ApiError π) (SpansListResponse σ μ)))).1
        = .error (.jsError apmAuthMessage) ∧
      (aggregateSpansExecute cfg env pa
          (fun _ _ => (.error e : Except (ApiError π) ρ))).1
        = .error (.jsError apmAuthMessage) ∧
      containsSub apmAuthMessage "apm_read") ∧
    (e.status = some 429 →
      (getTraceExecute cfg env pg
          (fun _ _ => (.error e : Except (ApiError π) (SpansListResponse σ μ)))).1
        = .error (.jsError rateLimitMessage) ∧
      (searchSpansExecute cfg env ps
          (fun _ _ => (.error e : Except (ApiError π) (SpansListResponse σ μ)))).1
        = .error (.jsError rateLimitMessage) ∧
      (aggregateSpansExecute cfg env pa
          (fun _ _ => (.error e : Except (ApiError π) ρ))).1
        = .error (.jsError rateLimitMessage) ∧
      containsSub rateLimitMessage "300 requests per hour") ∧
    (e.status = some 404 →
      (getTraceExecute cfg env pg
          (fun _ _ => (.error e : Except (ApiError π) (SpansListResponse σ μ)))).1
        = .error (.jsError (traceNotFoundMessage pg.traceId)) ∧
      containsSub (traceNotFoundMessage pg.traceId) pg.traceId ∧
      containsSub (traceNotFoundMessage pg.traceId) "last 15 minutes by default") ∧
    (e.status ≠ some 403 → e.status ≠ some 429 → e.status ≠ some 404 →
      (getTraceExecute cfg env pg
          (fun _ _ => (.error e : Except (ApiError π) (SpansListResponse σ μ)))).1
        = .error (.original e)) ∧
    (e.status ≠ some 403 → e.status ≠ some 429 →
      (searchSpansExecute cfg env ps
          (fun _ _ => (.error e : Except (ApiError π) (SpansListResponse σ μ)))).1
        = .error (.original e) ∧
      (aggregateSpansExecute cfg env pa
          (fun _ _ => (.error e : Except (ApiError π) ρ))).1
        = .error (.original e)) := by
  have hemp := isEmpty_false_of_ne ht
  refine ⟨fun h403 => ⟨?_, ?_, ?_, ?_⟩, fun h429 => ⟨?_, ?_, ?_, ?_⟩,
    fun h404 => ⟨?_, ?_, ?_⟩, fun hn3 hn4 hn5 => ?_, fun hn3 hn4 => ⟨?_, ?_⟩⟩
  · simp [getTraceExecute, hA, hB, hemp, h403]
  · simp [searchSpansExecute, hA, hB, h403]
  · simp [aggregateSpansExecute, hA, hB, h403]
  · exact ⟨"Datadog API authorization failed. Please verify your API and Application keys have the "
      ++ String.singleton quoteChar,
      String.singleton quoteChar ++ " scope.", by decide⟩
  · simp [getTraceExecute, hA, hB, hemp, h429]
  · simp [searchSpansExecute, hA, hB, h429]
  · simp [aggregateSpansExecute, hA, hB, h429]
  · exact ⟨"Rate limit exceeded. Spans API allows ", ".", by decide⟩
  · simp [getTraceExecute, hA, hB, hemp, h404]
  · exact ⟨"Trace with ID ",
      " not found. Make sure the trace exists and is within the time window (last 15 minutes by default).",
      rfl⟩
  · refine ⟨"Trace with ID " ++ pg.traceId
      ++ " not found. Make sure the trace exists and is within the time window (", ").", ?_⟩
    apply str_ext
    simp [traceNotFoundMessage]
  · simp [getTraceExecute, hA, hB, hemp, hn3, hn4, hn5]
  · simp [searchSpansExecute, hA, hB, hn3, hn4]
  · simp [aggregateSpansExecute, hA, hB, hn3, hn4]

/-- C4 witness: concrete runs at status 403 (translated on all three
adapters) and status 500 (rethrown unchanged). -/
theorem C4_witness :
    ((getTraceExecute (some (buildConfiguration envEx)) envEx
        { traceId := "abc123", limit := none }
        (fun _ _ => (.error { status := some 403, payload := 0 }
          : Except (ApiError Nat) (SpansListResponse Nat Nat)))).1
      = .error (.jsError apmAuthMessage) ∧
     (searchSpansExecute (some (buildConfiguration envEx)) envEx ssParamsEmpty
        (fun _ _ => (.error { status := some 403, payload := 0 }
          : Except (ApiError Nat) (SpansListResponse Nat Nat)))).1
      = .error (.jsError apmAuthMessage) ∧
     (aggregateSpansExecute (some (buildConfiguration envEx)) envEx asParamsEmpty
        (fun _ _ => (.error { status := some 403, payload := 0 }
          : Except (ApiError Nat) Nat))).1
      = .error (.jsError apmAuthMessage) ∧
     containsSub apmAuthMessage "apm_read") ∧
    (getTraceExecute (some (buildConfiguration envEx)) envEx
        { traceId := "abc123", limit := none }
        (fun _ _ => (.error { status := some 500, payload := 0 }
          : Except (ApiError Nat) (SpansListResponse Nat Nat)))).1
      = .error (.original { status := some 500, payload := 0 }) :=
  ⟨(C4_span_error_translation (some (buildConfiguration envEx)) envEx
      { traceId := "abc123", limit := none } ssParamsEmpty asParamsEmpty
      { status := some 403, payload := 0 } (by decide) (by decide) (by decide)).1 rfl,
   (C4_span_error_translation (ρ := Nat) (some (buildConfiguration envEx)) envEx
      { traceId := "abc123", limit := none } ssParamsEmpty asParamsEmpty
      { status := some 500, payload := 0 } (by decide) (by decide)
      (by decide)).2.2.2.1 (by decide) (by decide) (by decide)⟩
